import Mathlib

/-!
Shallow embedding of the motion-event classification pipeline of the
wheelchair-journey tracker (src/app.tsx, two screen variants, and the
backward-detection helper file src/unnamed/part_000).

JavaScript numbers are modelled as real numbers; timestamps (Date.now()
values, milliseconds) as integers.  Where the JavaScript semantics differs
from Lean's total real arithmetic (NaN from 0/0, the sign convention of
Math.atan2, the truncating remainder `%`), a dedicated helper function
reproduces the JavaScript behaviour and says so in its doc comment.
-/

/-- A latitude/longitude pair in degrees, as the `{latitude, longitude}`
objects passed around by the app. -/
structure GeoCoord where
  latitude : ℝ
  longitude : ℝ

/-- Degree-to-radian conversion, `toRadians` of src/unnamed/part_000. -/
noncomputable def toRadians (deg : ℝ) : ℝ := deg * (Real.pi / 180)

/-- Radian-to-degree conversion, `toDegrees` of src/unnamed/part_000. -/
noncomputable def toDegrees (rad : ℝ) : ℝ := rad * (180 / Real.pi)

/-- JavaScript `Math.trunc` (rounding toward zero), used to model the
sign-of-dividend behaviour of the JavaScript `%` operator. -/
noncomputable def jsTrunc (x : ℝ) : ℤ := if 0 ≤ x then ⌊x⌋ else ⌈x⌉

/-- JavaScript remainder `a % b`: `a - b * trunc (a / b)`, the sign follows
the dividend.  (For `b = 0` JavaScript yields NaN; no call site divides by
zero: the only use is `% 360`.) -/
noncomputable def jsMod (a b : ℝ) : ℝ := a - b * (jsTrunc (a / b) : ℝ)

/-- JavaScript `Math.atan2 y x`: the angle of the point `(x, y)` in
`(-pi, pi]`, by the case split JavaScript documents (real zeros carry no
sign, so the `-0` cases collapse onto the `+0` ones). -/
noncomputable def jsAtan2 (y x : ℝ) : ℝ :=
  if 0 < x then Real.arctan (y / x)
  else if x < 0 then
    (if 0 ≤ y then Real.arctan (y / x) + Real.pi
     else Real.arctan (y / x) - Real.pi)
  else
    (if 0 < y then Real.pi / 2
     else if y < 0 then -(Real.pi / 2)
     else 0)

/-- Haversine distance in metres, `calculateDistance` of src/app.tsx
(lines 998-1011; the second variant repeats it verbatim at 1805-1818):
`R = 6371e3`, `a = sin^2 (dphi/2) + cos phi1 * cos phi2 * sin^2 (dlam/2)`,
`c = 2 * atan2 (sqrt a) (sqrt (1-a))`, result `R * c`. -/
noncomputable def calculateDistance (coord1 coord2 : GeoCoord) : ℝ :=
  let lat1 := coord1.latitude
  let lon1 := coord1.longitude
  let lat2 := coord2.latitude
  let lon2 := coord2.longitude
  let R : ℝ := 6371e3
  let phi1 := lat1 * Real.pi / 180
  let phi2 := lat2 * Real.pi / 180
  let dPhi := (lat2 - lat1) * Real.pi / 180
  let dLam := (lon2 - lon1) * Real.pi / 180
  let a := Real.sin (dPhi / 2) ^ 2 +
    Real.cos phi1 * Real.cos phi2 * Real.sin (dLam / 2) ^ 2
  let c := 2 * jsAtan2 (Real.sqrt a) (Real.sqrt (1 - a))
  R * c

/-- Initial bearing in degrees, `computeBearing` of src/unnamed/part_000
(lines 13-23): `atan2` of the east/north components, converted to degrees
and normalised by `(deg + 360) % 360`. -/
noncomputable def computeBearing (lat1 lon1 lat2 lon2 : ℝ) : ℝ :=
  let phi1 := toRadians lat1
  let phi2 := toRadians lat2
  let dLam := toRadians (lon2 - lon1)
  let y := Real.sin dLam * Real.cos phi2
  let x := Real.cos phi1 * Real.sin phi2 -
    Real.sin phi1 * Real.cos phi2 * Real.cos dLam
  let theta := jsAtan2 y x
  jsMod (toDegrees theta + 360) 360

/-- A raw fix from the location provider: the fields of `position.coords`
(plus the `Date.now()` call time passed separately). `accuracy`, `speed`
and `heading` may be absent (`null`/`undefined`). -/
structure RawLocationSample where
  latitude : ℝ
  longitude : ℝ
  accuracy : Option ℝ
  speed : Option ℝ
  heading : Option ℝ

/-- The mutable state touched by the `watchPosition` callback of
`beginTracking` (src/app.tsx lines 911-996): refs `lastLocation`,
`lastLocationTimeRef`, `speedReadings`, `filteredLocation`, `pLat`, `pLon`,
`cumulativeDistance` plus the `speed`/`location`/`heading` state variables.
`pLat`/`pLon` are modelled as plain reals: the code only reads them after
`filteredLocation` has been set, at which point it has stored a number. -/
structure LocState where
  lastLocation : Option GeoCoord
  lastLocationTime : Option ℤ
  speed : ℝ
  speedReadings : List ℝ
  location : Option GeoCoord
  heading : Option ℝ
  filteredLocation : Option GeoCoord
  pLat : ℝ
  pLon : ℝ
  cumulativeDistance : ℝ

/-- The accuracy gate `accuracy && accuracy > 20` of src/app.tsx line 933
(`ACCURACY_THRESHOLD = 20` in the second variant, line 1734): a present
accuracy above 20 m.  (The truthiness test only matters for accuracy 0,
which is not above 20 anyway.) -/
def accuracyAbove20 (acc : Option ℝ) : Prop :=
  match acc with
  | some a => 20 < a
  | none => False

noncomputable instance (acc : Option ℝ) : Decidable (accuracyAbove20 acc) :=
  match acc with
  | some a => inferInstanceAs (Decidable (20 < a))
  | none => .isFalse fun h => h

/-- The `else if (lastLocation.current && lastLocationTimeRef.current)`
fallback both variants use when the device-reported speed is not taken
(src/app.tsx lines 937-944 and 1746-1753): `dt = (now - lastTime) / 1000`,
`dt > 0 ? dist / dt : 0`, and 0 when no previous location/time exists. -/
noncomputable def speedFallback (s : LocState) (c : RawLocationSample)
    (now : ℤ) : ℝ :=
  match s.lastLocation, s.lastLocationTime with
  | some prev, some t0 =>
      if 0 < ((now - t0 : ℤ) : ℝ) / 1000 then
        calculateDistance prev ⟨c.latitude, c.longitude⟩ /
          (((now - t0 : ℤ) : ℝ) / 1000)
      else 0
  | _, _ => 0

/-- Speed computation of the first variant (src/app.tsx lines 934-944):
use `coords.speed` when present and non-negative, otherwise the fallback. -/
noncomputable def computedSpeedOf (s : LocState) (c : RawLocationSample)
    (now : ℤ) : ℝ :=
  match c.speed with
  | some v => if 0 ≤ v then v else speedFallback s c now
  | none => speedFallback s c now

/-- Speed computation of the second variant (src/app.tsx lines 1739-1753):
identical except that the device-reported speed is consulted only when
`Platform.OS === 'ios'`. -/
noncomputable def computedSpeedOf2 (isIOS : Bool) (s : LocState)
    (c : RawLocationSample) (now : ℤ) : ℝ :=
  if isIOS then
    match c.speed with
    | some v => if 0 ≤ v then v else speedFallback s c now
    | none => speedFallback s c now
  else speedFallback s c now

/-- Body of the first variant's `watchPosition` callback once the sample
passed the accuracy gate (src/app.tsx lines 934-979): speed bookkeeping,
heading update, per-axis scalar Kalman filter (`R = Q = 0.0001`), and
distance accumulation gated by `deltaDistance > NOISE_THRESHOLD (3.0) ||
computedSpeed > 0.2`. -/
noncomputable def locationAccept (s : LocState) (c : RawLocationSample)
    (now : ℤ) : LocState :=
  let computedSpeed := computedSpeedOf s c now
  let s1 : LocState :=
    { s with
      lastLocationTime := some now
      speed := computedSpeed
      speedReadings := s.speedReadings ++ [computedSpeed]
      location := some ⟨c.latitude, c.longitude⟩
      heading := match c.heading with
        | some h => some h
        | none => s.heading }
  let s2 : LocState :=
    match s1.filteredLocation with
    | none =>
        { s1 with
          filteredLocation := some ⟨c.latitude, c.longitude⟩
          pLat := 1
          pLon := 1 }
    | some fl =>
        let kalmanGainLat := s1.pLat / (s1.pLat + 0.0001)
        let newLat := fl.latitude + kalmanGainLat * (c.latitude - fl.latitude)
        let pLat1 := (1 - kalmanGainLat) * s1.pLat + 0.0001
        let kalmanGainLon := s1.pLon / (s1.pLon + 0.0001)
        let newLon := fl.longitude + kalmanGainLon * (c.longitude - fl.longitude)
        let pLon1 := (1 - kalmanGainLon) * s1.pLon + 0.0001
        let newFilteredLocation : GeoCoord := ⟨newLat, newLon⟩
        let deltaDistance := calculateDistance fl newFilteredLocation
        { s1 with
          filteredLocation := some newFilteredLocation
          pLat := pLat1
          pLon := pLon1
          cumulativeDistance :=
            if 3.0 < deltaDistance ∨ 0.2 < computedSpeed then
              s1.cumulativeDistance + deltaDistance
            else s1.cumulativeDistance }
  { s2 with lastLocation := some ⟨c.latitude, c.longitude⟩ }

/-- The first variant's `watchPosition` callback (src/app.tsx lines
926-981): return on `resultShownRef`, return unless `!pausedRef.current`,
discard on the accuracy gate, otherwise process the sample. -/
noncomputable def locationStep (resultShown paused : Bool) (s : LocState)
    (c : RawLocationSample) (now : ℤ) : LocState :=
  if resultShown then s
  else if paused then s
  else if accuracyAbove20 c.accuracy then s
  else locationAccept s c now

/-- A whole stream of location samples with their arrival times, as
delivered to the first variant's callback. -/
noncomputable def runLocation (resultShown paused : Bool) (s : LocState)
    (samples : List (RawLocationSample × ℤ)) : LocState :=
  samples.foldl (fun st p => locationStep resultShown paused st p.1 p.2) s

/-- The second variant's `watchPosition` callback (src/app.tsx lines
1727-1784).  Its guard reads the `paused` binding captured by the closure
when `beginTracking` registered the callback (`pausedCaptured`), not the
live component state: React state variables are rebound per render, and
the callback registered once keeps the old binding (the first variant
works around exactly this with `pausedRef`, lines 606-610).  It uses the
low-pass filter `LPF_ALPHA = 0.95` and `NOISE_THRESHOLD = 1.0`, updates no
heading, and never writes `lastLocation`. -/
noncomputable def locationStep2 (pausedCaptured isIOS : Bool) (s : LocState)
    (c : RawLocationSample) (now : ℤ) : LocState :=
  if pausedCaptured then s
  else if accuracyAbove20 c.accuracy then s
  else
    let computedSpeed := computedSpeedOf2 isIOS s c now
    let s1 : LocState :=
      { s with
        lastLocationTime := some now
        speed := computedSpeed
        speedReadings := s.speedReadings ++ [computedSpeed]
        location := some ⟨c.latitude, c.longitude⟩ }
    match s1.filteredLocation with
    | none => { s1 with filteredLocation := some ⟨c.latitude, c.longitude⟩ }
    | some fl =>
        let newFilteredLat := 0.95 * c.latitude + (1 - 0.95) * fl.latitude
        let newFilteredLon := 0.95 * c.longitude + (1 - 0.95) * fl.longitude
        let newFilteredLocation : GeoCoord := ⟨newFilteredLat, newFilteredLon⟩
        let deltaDistance := calculateDistance fl newFilteredLocation
        { s1 with
          filteredLocation := some newFilteredLocation
          cumulativeDistance :=
            if 1.0 < deltaDistance ∨ 0.2 < computedSpeed then
              s1.cumulativeDistance + deltaDistance
            else s1.cumulativeDistance }

/-- One accelerometer sample `{x, y, z}` (m/s^2, device frame). -/
structure V3 where
  x : ℝ
  y : ℝ
  z : ℝ

/-- One recorded stop `{start, end, duration}` (the `end` field is named
`stop` here because `end` is a Lean keyword). -/
structure StopEntry where
  start : ℤ
  stop : ℤ
  duration : ℤ

/-- The mutable state touched by the first variant's accelerometer
callback (src/app.tsx lines 669-761) and `finalizeStop` (621-640):
stillness refs (`lastAccelRef`, `currentStopStartRef`,
`stillAlertTimeoutRef` as the scheduled fire time of the pending timer),
the stop aggregates, vertical-bump state (`baselineZRef`, the two bump
counters, `crashCooldownInternalRef` as the time its 1000 ms reset timer
fires), and fall state (`baselineFallRef`, `fallDetectionStartRef`,
`fallCount`, `isFallen`).  `bumpEvents` counts emitted Bump toast
notifications. -/
structure AccelState where
  lastAccel : Option V3
  currentStopStart : Option ℤ
  stillTimer : Option ℤ
  stopCount : ℕ
  stops : List StopEntry
  totalStopTime : ℤ
  baselineZ : Option ℝ
  bumpMajorCount : ℕ
  bumpMinorCount : ℕ
  bumpEvents : ℕ
  crashCooldownUntil : Option ℤ
  baselineFall : Option V3
  fallStart : Option ℤ
  fallCount : ℕ
  isFallen : Bool

/-- `finalizeStop` (src/app.tsx lines 621-640): cancel the stillness-alert
timer, record the stop only when its duration reached
`STILLNESS_DURATION = 15000` ms, and clear the stop start.  (JavaScript
would coerce a null start to 0; both call sites only invoke it with
`currentStopStartRef.current` set.) -/
def finalizeStop (s : AccelState) (now : ℤ) : AccelState :=
  if 15000 ≤ now - s.currentStopStart.getD 0 then
    { s with
      stillTimer := none
      stopCount := s.stopCount + 1
      stops := s.stops ++
        [⟨s.currentStopStart.getD 0, now, now - s.currentStopStart.getD 0⟩]
      totalStopTime := s.totalStopTime + (now - s.currentStopStart.getD 0)
      currentStopStart := none }
  else { s with stillTimer := none, currentStopStart := none }

/-- Stillness detection (src/app.tsx lines 676-696): when all three axis
deltas from the previous sample are below
`STANDING_STILL_THRESHOLD = 0.05` a stop period begins (scheduling the
15 s assistance-alert timer); on movement a pending stop is finalized;
`lastAccelRef` is updated afterwards in every case. -/
noncomputable def stillSection (s : AccelState) (a : V3) (now : ℤ) :
    AccelState :=
  match s.lastAccel with
  | none => { s with lastAccel := some a }
  | some prev =>
      if |a.x - prev.x| < 0.05 ∧ |a.y - prev.y| < 0.05 ∧
          |a.z - prev.z| < 0.05 then
        match s.currentStopStart with
        | none =>
            { s with
              currentStopStart := some now
              stillTimer := some (now + 15000)
              lastAccel := some a }
        | some _ => { s with lastAccel := some a }
      else
        match s.currentStopStart with
        | some _ => { finalizeStop s now with lastAccel := some a }
        | none => { s with lastAccel := some a }

/-- `handleBumpEvent` (src/app.tsx lines 429-446): classify by
`bumpMajorThreshold = 1.2` (`>=` major, else minor), emit one toast, and
arm the shared 1000 ms cooldown (`crashCooldownInternalRef` with its
`setTimeout` reset, modelled as the reset time `now + 1000`). -/
noncomputable def handleBumpEvent (adjustedZ : ℝ) (s : AccelState) (now : ℤ) :
    AccelState :=
  if 1.2 ≤ |adjustedZ| then
    { s with
      bumpMajorCount := s.bumpMajorCount + 1
      bumpEvents := s.bumpEvents + 1
      crashCooldownUntil := some (now + 1000) }
  else
    { s with
      bumpMinorCount := s.bumpMinorCount + 1
      bumpEvents := s.bumpEvents + 1
      crashCooldownUntil := some (now + 1000) }

/-- Whether `crashCooldownInternalRef.current` still reads `true` at time
`now`: the single-threaded event loop runs the 1000 ms reset timer before
any callback scheduled at or after its fire time. -/
def cooldownActive (s : AccelState) (now : ℤ) : Prop :=
  match s.crashCooldownUntil with
  | some u => now < u
  | none => False

instance (s : AccelState) (now : ℤ) : Decidable (cooldownActive s now) :=
  match h : s.crashCooldownUntil with
  | some u => by
      unfold cooldownActive
      rw [h]
      infer_instance
  | none => by
      unfold cooldownActive
      rw [h]
      infer_instance

/-- Vertical bump detection (src/app.tsx lines 698-716): skipped entirely
while `isFallen` or during the shared cooldown; the slowly-adapted
baseline (`0.95 * baseline + 0.05 * z` while within 0.2) and the
`|z - baseline| > bumpThreshold (0.5)` trigger.  On the very first sample
the baseline is set to `z` itself, making `adjustedZ` 0, below the
threshold, so that branch just stores the baseline. -/
noncomputable def bumpSection (s : AccelState) (a : V3) (now : ℤ) :
    AccelState :=
  if s.isFallen then s
  else if cooldownActive s now then s
  else
    match s.baselineZ with
    | none => { s with baselineZ := some a.z }
    | some b =>
        let b1 := if |a.z - b| < 0.2 then b * 0.95 + a.z * 0.05 else b
        if 0.5 < |a.z - b1| then
          handleBumpEvent (a.z - b1) { s with baselineZ := some b1 } now
        else { s with baselineZ := some b1 }

/-- Vector magnitude, `Math.sqrt (x*x + y*y + z*z)`. -/
noncomputable def magV (a : V3) : ℝ := Real.sqrt (a.x ^ 2 + a.y ^ 2 + a.z ^ 2)

/-- Dot product of two acceleration vectors. -/
def dotV (a b : V3) : ℝ := a.x * b.x + a.y * b.y + a.z * b.z

/-- The angle in degrees computed at src/app.tsx lines 722-733:
`acos (dot / (magCurrent * magBaseline)) * 180 / pi`.  `none` models the
NaN JavaScript produces when the magnitude product is zero (a zero
product forces a zero dot, and `0/0` is NaN, as is `acos NaN`); every
order comparison against NaN is false.  When the product is nonzero the
ratio stays in `[-1, 1]` by the Cauchy-Schwarz inequality, so `acos`
never sees an out-of-range argument in the real-number model. -/
noncomputable def jsAngleDeg (cur base : V3) : Option ℝ :=
  if magV cur * magV base = 0 then none
  else some (Real.arccos (dotV cur base / (magV cur * magV base)) *
    (180 / Real.pi))

/-- JavaScript `angle > c` where `angle` may be NaN (`none`): false then. -/
def nanGt (a : Option ℝ) (c : ℝ) : Prop :=
  match a with
  | some v => c < v
  | none => False

/-- JavaScript `angle < c` where `angle` may be NaN (`none`): false then. -/
def nanLt (a : Option ℝ) (c : ℝ) : Prop :=
  match a with
  | some v => v < c
  | none => False

noncomputable instance (a : Option ℝ) (c : ℝ) : Decidable (nanGt a c) :=
  match a with
  | some v => inferInstanceAs (Decidable (c < v))
  | none => .isFalse fun h => h

noncomputable instance (a : Option ℝ) (c : ℝ) : Decidable (nanLt a c) :=
  match a with
  | some v => inferInstanceAs (Decidable (v < c))
  | none => .isFalse fun h => h

/-- Fall detection by gravity-vector deviation (src/app.tsx lines
718-754): the baseline is captured from the first sample; the angle to
the baseline must exceed `FALL_ANGLE_THRESHOLD = 45` degrees continuously
for `FALL_DETECTION_DURATION = 500` ms before `isFallen` is set and
`fallCount` incremented; while fallen, an angle back below 45 degrees
clears `isFallen`. -/
noncomputable def fallSection (s : AccelState) (a : V3) (now : ℤ) :
    AccelState :=
  let s0 : AccelState :=
    match s.baselineFall with
    | none => { s with baselineFall := some a }
    | some _ => s
  let angle := jsAngleDeg a (s0.baselineFall.getD a)
  if s0.isFallen = false then
    if nanGt angle 45 then
      match s0.fallStart with
      | none => { s0 with fallStart := some now }
      | some t0 =>
          if 500 ≤ now - t0 then
            { s0 with
              fallCount := s0.fallCount + 1
              isFallen := true
              fallStart := none }
          else s0
    else { s0 with fallStart := none }
  else if nanLt angle 45 then { s0 with isFallen := false }
  else s0

/-- The first variant's accelerometer callback (src/app.tsx lines
673-755): return on `resultShownRef`, process only when
`!pausedRef.current`, then stillness, vertical bump and fall detection in
that order. -/
noncomputable def accelStep (resultShown paused : Bool) (s : AccelState)
    (a : V3) (now : ℤ) : AccelState :=
  if resultShown then s
  else if paused then s
  else fallSection (bumpSection (stillSection s a now) a now) a now

/-- A stream of accelerometer samples with their arrival times. -/
noncomputable def runAccel (resultShown paused : Bool) (s : AccelState)
    (samples : List (V3 × ℤ)) : AccelState :=
  samples.foldl (fun st p => accelStep resultShown paused st p.1 p.2) s

/-- The "Back" (new-journey) handler of the summary screen (src/app.tsx
lines 1240-1266) restricted to the accelerometer aggregates it resets:
`setStopCount(0)`, `setStops([])`, `setTotalStopTime(0)`,
`setBumpMajorCount(0)`, `setBumpMinorCount(0)`, `setFallCount(0)`,
`setIsFallen(false)`.  (`bumpEvents` only counts toasts already shown, so
it is history, not resettable state.) -/
def resetJourney (s : AccelState) : AccelState :=
  { s with
    stopCount := 0
    stops := []
    totalStopTime := 0
    bumpMajorCount := 0
    bumpMinorCount := 0
    fallCount := 0
    isFallen := false }

/-- The session-level state touched by `stopTracking`: the `tracking`
flag, the location watch (`locationSubscription.current` non-null), the
pending stillness-alert timer, speed readings and the summary fields. -/
structure Session1 where
  tracking : Bool
  locationSub : Bool
  stillTimer : Option ℤ
  speedReadings : List ℝ
  averageSpeed : ℝ
  startTime : Option ℤ
  duration : ℝ
  showResults : Bool

/-- The first variant's `stopTracking` (src/app.tsx lines 1016-1035):
clears the location watch, cancels a pending stillness-alert timer,
computes the average speed and duration, and shows the summary. -/
noncomputable def stopTracking (s : Session1) (now : ℤ) : Session1 :=
  { s with
    tracking := false
    locationSub := false
    stillTimer := none
    averageSpeed :=
      if 0 < s.speedReadings.length then
        s.speedReadings.sum / (s.speedReadings.length : ℝ)
      else 0
    duration := match s.startTime with
      | some t0 => ((now - t0 : ℤ) : ℝ) / 1000
      | none => 0
    showResults := true }

/-- The second variant's `stopTracking` (src/app.tsx lines 1823-1840): it
clears the location watch and computes the summary, but never touches
`stillAlertTimeoutRef` - a pending stillness-alert timer survives it. -/
noncomputable def stopTracking2 (s : Session1) (now : ℤ) : Session1 :=
  { s with
    tracking := false
    locationSub := false
    averageSpeed :=
      if 0 < s.speedReadings.length then
        s.speedReadings.sum / (s.speedReadings.length : ℝ)
      else 0
    duration := match s.startTime with
      | some t0 => ((now - t0 : ℤ) : ℝ) / 1000
      | none => 0
    showResults := true }

/-- The aggregate invariant of C10 over the stop bookkeeping: the counter
matches the list length and the total matches the summed durations. -/
def stopInv (s : AccelState) : Prop :=
  s.stopCount = s.stops.length ∧
    s.totalStopTime = (s.stops.map StopEntry.duration).sum

lemma arctan_nonneg_of_nonneg {v : ℝ} (h : 0 ≤ v) : 0 ≤ Real.arctan v := by
  have := Real.arctan_strictMono.monotone h
  rwa [Real.arctan_zero] at this

lemma arctan_nonpos_of_nonpos {v : ℝ} (h : v ≤ 0) : Real.arctan v ≤ 0 := by
  have := Real.arctan_strictMono.monotone h
  rwa [Real.arctan_zero] at this

lemma arctan_pos_of_pos {v : ℝ} (h : 0 < v) : 0 < Real.arctan v := by
  have := Real.arctan_strictMono h
  rwa [Real.arctan_zero] at this

lemma jsAtan2_nonneg {y : ℝ} (x : ℝ) (hy : 0 ≤ y) : 0 ≤ jsAtan2 y x := by
  unfold jsAtan2
  have hpi := Real.pi_pos
  split_ifs with h1 h2 h3 h4
  · exact arctan_nonneg_of_nonneg (div_nonneg hy h1.le)
  · have := Real.neg_pi_div_two_lt_arctan (y / x)
    linarith
  · linarith
  · linarith
  · linarith

lemma jsAtan2_gt_neg_pi (y x : ℝ) : -Real.pi < jsAtan2 y x := by
  unfold jsAtan2
  have hpi := Real.pi_pos
  split_ifs with h1 h2 h3 h4 h5
  · have := Real.neg_pi_div_two_lt_arctan (y / x)
    linarith
  · have := Real.neg_pi_div_two_lt_arctan (y / x)
    linarith
  · have hy : y < 0 := lt_of_not_le h3
    have hyx : 0 < y / x := div_pos_of_neg_of_neg hy h2
    have := arctan_pos_of_pos hyx
    linarith
  · linarith
  · linarith
  · linarith

lemma jsAtan2_le_pi (y x : ℝ) : jsAtan2 y x ≤ Real.pi := by
  unfold jsAtan2
  have hpi := Real.pi_pos
  split_ifs with h1 h2 h3 h4 h5
  · have := Real.arctan_lt_pi_div_two (y / x)
    linarith
  · have hyx : y / x ≤ 0 := div_nonpos_of_nonneg_of_nonpos h3 h2.le
    have := arctan_nonpos_of_nonpos hyx
    linarith
  · have := Real.arctan_lt_pi_div_two (y / x)
    linarith
  · linarith
  · linarith
  · linarith

lemma jsMod_nonneg_of_nonneg {a b : ℝ} (ha : 0 ≤ a) (hb : 0 < b) :
    0 ≤ jsMod a b := by
  unfold jsMod jsTrunc
  rw [if_pos (div_nonneg ha hb.le)]
  have h := Int.floor_le (a / b)
  have : b * (⌊a / b⌋ : ℝ) ≤ b * (a / b) := by
    exact mul_le_mul_of_nonneg_left h hb.le
  rw [mul_div_cancel₀ a hb.ne.symm] at this
  linarith

lemma jsMod_lt_of_nonneg {a b : ℝ} (ha : 0 ≤ a) (hb : 0 < b) :
    jsMod a b < b := by
  unfold jsMod jsTrunc
  rw [if_pos (div_nonneg ha hb.le)]
  have h := Int.lt_floor_add_one (a / b)
  have : b * (a / b) < b * ((⌊a / b⌋ : ℝ) + 1) := by
    exact mul_lt_mul_of_pos_left h hb
  rw [mul_div_cancel₀ a hb.ne.symm] at this
  nlinarith

lemma calculateDistance_nonneg (p q : GeoCoord) :
    0 ≤ calculateDistance p q := by
  unfold calculateDistance
  have h := jsAtan2_nonneg
    (Real.sqrt (1 - (Real.sin ((q.latitude - p.latitude) * Real.pi / 180 / 2) ^ 2 +
      Real.cos (p.latitude * Real.pi / 180) * Real.cos (q.latitude * Real.pi / 180) *
        Real.sin ((q.longitude - p.longitude) * Real.pi / 180 / 2) ^ 2)))
    (Real.sqrt_nonneg (Real.sin ((q.latitude - p.latitude) * Real.pi / 180 / 2) ^ 2 +
      Real.cos (p.latitude * Real.pi / 180) * Real.cos (q.latitude * Real.pi / 180) *
        Real.sin ((q.longitude - p.longitude) * Real.pi / 180 / 2) ^ 2))
  positivity

lemma calculateDistance_self (p : GeoCoord) : calculateDistance p p = 0 := by
  unfold calculateDistance jsAtan2
  simp only [sub_self, zero_mul, zero_div, Real.sin_zero, ne_eq,
    OfNat.ofNat_ne_zero, not_false_eq_true, zero_pow, zero_add, mul_zero,
    add_zero, sub_zero, Real.sqrt_zero, Real.sqrt_one]
  rw [if_pos (by norm_num : (0:ℝ) < 1)]
  simp [Real.arctan_zero]

lemma jsAtan2_sin_cos {t : ℝ} (h1 : -(Real.pi / 2) < t) (h2 : t < Real.pi / 2) :
    jsAtan2 (Real.sin t) (Real.cos t) = t := by
  have hcos : 0 < Real.cos t := Real.cos_pos_of_mem_Ioo ⟨h1, h2⟩
  unfold jsAtan2
  rw [if_pos hcos, ← Real.tan_eq_sin_div_cos, Real.arctan_tan h1 h2]

lemma calculateDistance_equator :
    calculateDistance ⟨0, 0⟩ ⟨0, 1⟩ = 6371e3 * (Real.pi / 180) := by
  have hpi := Real.pi_pos
  have h1 : -(Real.pi / 2) < Real.pi / 360 := by linarith
  have h2 : Real.pi / 360 < Real.pi / 2 := by linarith
  have hsin : 0 ≤ Real.sin (Real.pi / 360) :=
    Real.sin_nonneg_of_nonneg_of_le_pi (by positivity) (by linarith)
  have hs : Real.sqrt (Real.sin (Real.pi / 360) ^ 2) = Real.sin (Real.pi / 360) :=
    Real.sqrt_sq hsin
  have hcospos : 0 < Real.cos (Real.pi / 360) := Real.cos_pos_of_mem_Ioo ⟨h1, h2⟩
  have hc : Real.sqrt (1 - Real.sin (Real.pi / 360) ^ 2) = Real.cos (Real.pi / 360) := by
    rw [← Real.cos_sq']
    exact Real.sqrt_sq hcospos.le
  unfold calculateDistance
  simp only
  norm_num
  rw [show Real.pi / 180 / 2 = Real.pi / 360 by ring, hs, hc,
    jsAtan2_sin_cos h1 h2]
  ring

lemma toDegrees_jsAtan2_add_360_nonneg (y x : ℝ) :
    0 ≤ toDegrees (jsAtan2 y x) + 360 := by
  unfold toDegrees
  have h := jsAtan2_gt_neg_pi y x
  have hpi := Real.pi_pos
  have h180 : (0:ℝ) < 180 / Real.pi := by positivity
  have hmul := mul_lt_mul_of_pos_right h h180
  have hid : -Real.pi * (180 / Real.pi) = -180 := by
    field_simp
    ring
  linarith [hmul, hid.ge, hid.le]

lemma computeBearing_range (lat1 lon1 lat2 lon2 : ℝ) :
    0 ≤ computeBearing lat1 lon1 lat2 lon2 ∧
      computeBearing lat1 lon1 lat2 lon2 < 360 := by
  unfold computeBearing
  simp only
  exact ⟨jsMod_nonneg_of_nonneg (toDegrees_jsAtan2_add_360_nonneg _ _) (by norm_num),
    jsMod_lt_of_nonneg (toDegrees_jsAtan2_add_360_nonneg _ _) (by norm_num)⟩

lemma computeBearing_north : computeBearing 0 0 1 0 = 0 := by
  have hpi := Real.pi_pos
  have hsinpos : 0 < Real.sin (1 * (Real.pi / 180)) := by
    rw [one_mul]
    exact Real.sin_pos_of_pos_of_lt_pi (by positivity) (by linarith)
  unfold computeBearing toRadians
  simp only
  norm_num
  have hsp : 0 < Real.sin (Real.pi / 180) := by
    exact Real.sin_pos_of_pos_of_lt_pi (by positivity) (by linarith)
  unfold jsAtan2
  rw [if_pos hsp, zero_div, Real.arctan_zero]
  unfold toDegrees jsMod jsTrunc
  norm_num

/-- C6: the geodesic helpers satisfy `distance(P,P) = 0`, bearing always in
`[0, 360)`, `distance(0,0, 0,1)` within 1% of 111195 m, and
`bearing(0,0, 1,0) = 0` (due north). -/
theorem claim_C6_geodesic_helpers :
    (∀ p : GeoCoord, calculateDistance p p = 0) ∧
    (∀ lat1 lon1 lat2 lon2 : ℝ,
      0 ≤ computeBearing lat1 lon1 lat2 lon2 ∧
        computeBearing lat1 lon1 lat2 lon2 < 360) ∧
    |calculateDistance ⟨0, 0⟩ ⟨0, 1⟩ - 111195| ≤ 111195 / 100 ∧
    computeBearing 0 0 1 0 = 0 := by
  refine ⟨calculateDistance_self, computeBearing_range, ?_, computeBearing_north⟩
  rw [calculateDistance_equator, abs_le]
  constructor
  · nlinarith [Real.pi_gt_d2]
  · nlinarith [Real.pi_lt_d2]

lemma locationAccept_cumulative_mono (s : LocState) (c : RawLocationSample)
    (now : ℤ) :
    s.cumulativeDistance ≤ (locationAccept s c now).cumulativeDistance := by
  unfold locationAccept
  cases hfl : s.filteredLocation with
  | none => simp [hfl]
  | some fl =>
    simp only [hfl]
    split_ifs with h
    · have := calculateDistance_nonneg fl
        ⟨fl.latitude + s.pLat / (s.pLat + 0.0001) * (c.latitude - fl.latitude),
         fl.longitude + s.pLon / (s.pLon + 0.0001) * (c.longitude - fl.longitude)⟩
      linarith
    · exact le_refl _

lemma locationStep_cumulative_mono (resultShown paused : Bool) (s : LocState)
    (c : RawLocationSample) (now : ℤ) :
    s.cumulativeDistance ≤
      (locationStep resultShown paused s c now).cumulativeDistance := by
  unfold locationStep
  split_ifs with h1 h2 h3
  · exact le_refl _
  · exact le_refl _
  · exact le_refl _
  · exact locationAccept_cumulative_mono s c now

lemma runLocation_cumulative_mono (resultShown paused : Bool)
    (samples : List (RawLocationSample × ℤ)) :
    ∀ s : LocState, s.cumulativeDistance ≤
      (runLocation resultShown paused s samples).cumulativeDistance := by
  induction samples with
  | nil => intro s; simp [runLocation]
  | cons hd tl ih =>
      intro s
      have h1 := locationStep_cumulative_mono resultShown paused s hd.1 hd.2
      have h2 := ih (locationStep resultShown paused s hd.1 hd.2)
      simpa [runLocation] using le_trans h1 h2

lemma locationStep_discard (s : LocState) (c : RawLocationSample) (now : ℤ)
    (a : ℝ) (h1 : c.accuracy = some a) (h2 : 20 < a) :
    locationStep false false s c now = s := by
  unfold locationStep
  have hacc : accuracyAbove20 c.accuracy := by
    rw [h1]; exact h2
  simp [hacc]

/-- C1: during tracking the cumulative distance is non-decreasing (each
accepted delta is a haversine distance, hence non-negative), over a single
callback invocation as well as over any sample stream; and a sample whose
accuracy is present and above the 20 m threshold is discarded with the
whole location-filter state unchanged. -/
theorem claim_C1_distance_monotonic_accuracy_gate :
    (∀ p q : GeoCoord, 0 ≤ calculateDistance p q) ∧
    (∀ (resultShown paused : Bool) (s : LocState) (c : RawLocationSample)
      (now : ℤ), s.cumulativeDistance ≤
        (locationStep resultShown paused s c now).cumulativeDistance) ∧
    (∀ (resultShown paused : Bool) (s : LocState)
      (samples : List (RawLocationSample × ℤ)), s.cumulativeDistance ≤
        (runLocation resultShown paused s samples).cumulativeDistance) ∧
    (∀ (s : LocState) (c : RawLocationSample) (now : ℤ) (a : ℝ),
      c.accuracy = some a → 20 < a →
        locationStep false false s c now = s) :=
  ⟨calculateDistance_nonneg, locationStep_cumulative_mono,
    fun resultShown paused s samples =>
      runLocation_cumulative_mono resultShown paused samples s,
    locationStep_discard⟩

/-- Witness for C1 at a concrete input: a sample with accuracy 25 m (above
the 20 m threshold) leaves a concrete state unchanged. -/
theorem claim_C1_witness :
    (⟨0, 0, some 25, none, none⟩ : RawLocationSample).accuracy = some 25 ∧
      (20:ℝ) < 25 ∧
      locationStep false false
        ⟨none, none, 0, [], none, none, none, 0, 0, 0⟩
        ⟨0, 0, some 25, none, none⟩ 5 =
        ⟨none, none, 0, [], none, none, none, 0, 0, 0⟩ :=
  ⟨rfl, by norm_num,
    claim_C1_distance_monotonic_accuracy_gate.2.2.2
      ⟨none, none, 0, [], none, none, none, 0, 0, 0⟩
      ⟨0, 0, some 25, none, none⟩ 5 25 rfl (by norm_num)⟩

lemma speedFallback_of_prev (s : LocState) (c : RawLocationSample)
    (now : ℤ) (prev : GeoCoord) (t0 : ℤ) (hloc : s.lastLocation = some prev)
    (htime : s.lastLocationTime = some t0) (hlt : t0 < now) :
    speedFallback s c now =
      calculateDistance prev ⟨c.latitude, c.longitude⟩ /
        (((now - t0 : ℤ) : ℝ) / 1000) := by
  have hdt : (0:ℝ) < ((now - t0 : ℤ) : ℝ) / 1000 := by
    have h0 : (0:ℤ) < now - t0 := by omega
    have : (0:ℝ) < ((now - t0 : ℤ) : ℝ) := by exact_mod_cast h0
    linarith
  unfold speedFallback
  rw [hloc, htime]
  dsimp only
  rw [if_pos hdt]

lemma speedFallback_zero (s : LocState) (c : RawLocationSample) (now : ℤ)
    (h : s.lastLocation = none ∨ s.lastLocationTime = none ∨
      (∃ t0, s.lastLocationTime = some t0 ∧ now ≤ t0)) :
    speedFallback s c now = 0 := by
  unfold speedFallback
  rcases h with h | h | ⟨t0, ht, hle⟩
  · rw [h]
  · rw [h]
    cases s.lastLocation <;> rfl
  · rw [ht]
    cases s.lastLocation with
    | none => rfl
    | some prev =>
        have hd : ¬ (0:ℝ) < ((now - t0 : ℤ) : ℝ) / 1000 := by
          have h0 : (now - t0 : ℤ) ≤ 0 := by omega
          have : ((now - t0 : ℤ) : ℝ) ≤ 0 := by exact_mod_cast h0
          intro hc
          nlinarith
        dsimp only
        rw [if_neg hd]

/-- C7 as stated is false on the second variant: on a non-iOS platform a
present, non-negative device-reported speed (5 m/s) is ignored and the
fallback (here 0, no previous location) is used instead. -/
theorem claim_C7_counterexample :
    (⟨0, 0, none, some 5, none⟩ : RawLocationSample).speed = some 5 ∧
      (0:ℝ) ≤ 5 ∧
      computedSpeedOf2 false ⟨none, none, 0, [], none, none, none, 0, 0, 0⟩
        ⟨0, 0, none, some 5, none⟩ 1000 = 0 ∧
      (0:ℝ) ≠ 5 := by
  refine ⟨rfl, by norm_num, ?_, by norm_num⟩
  unfold computedSpeedOf2 speedFallback
  simp

/-- C7 amended: the first variant's speed equals the device-reported speed
whenever present and non-negative, otherwise the haversine distance from
the previous raw location over the elapsed seconds, and 0 when the elapsed
time is non-positive or no previous location/time exists; the second
variant does the same only on iOS, and on any other platform it ignores
the device-reported speed entirely, behaving as if none were present. -/
theorem claim_C7_speed_selection :
    (∀ (s : LocState) (c : RawLocationSample) (now : ℤ) (v : ℝ),
      c.speed = some v → 0 ≤ v → computedSpeedOf s c now = v) ∧
    (∀ (s : LocState) (c : RawLocationSample) (now : ℤ) (prev : GeoCoord)
      (t0 : ℤ), (c.speed = none ∨ ∃ v, c.speed = some v ∧ v < 0) →
      s.lastLocation = some prev → s.lastLocationTime = some t0 → t0 < now →
      computedSpeedOf s c now =
        calculateDistance prev ⟨c.latitude, c.longitude⟩ /
          (((now - t0 : ℤ) : ℝ) / 1000)) ∧
    (∀ (s : LocState) (c : RawLocationSample) (now : ℤ),
      (c.speed = none ∨ ∃ v, c.speed = some v ∧ v < 0) →
      (s.lastLocation = none ∨ s.lastLocationTime = none ∨
        (∃ t0, s.lastLocationTime = some t0 ∧ now ≤ t0)) →
      computedSpeedOf s c now = 0) ∧
    (∀ (s : LocState) (c : RawLocationSample) (now : ℤ) (v : ℝ),
      c.speed = some v → 0 ≤ v → computedSpeedOf2 true s c now = v) ∧
    (∀ (s : LocState) (c : RawLocationSample) (now : ℤ),
      computedSpeedOf2 false s c now =
        computedSpeedOf s
          ⟨c.latitude, c.longitude, c.accuracy, none, c.heading⟩ now) := by
  have hsel : ∀ (s : LocState) (c : RawLocationSample) (now : ℤ),
      (c.speed = none ∨ ∃ v, c.speed = some v ∧ v < 0) →
      computedSpeedOf s c now = speedFallback s c now := by
    intro s c now hsp
    unfold computedSpeedOf
    rcases hsp with h | ⟨v, hv, hneg⟩
    · rw [h]
    · rw [hv]
      simp [not_le.mpr hneg]
  refine ⟨?_, ?_, ?_, ?_, ?_⟩
  · intro s c now v hv hnn
    unfold computedSpeedOf
    rw [hv]
    simp [hnn]
  · intro s c now prev t0 hsp hloc htime hlt
    rw [hsel s c now hsp]
    exact speedFallback_of_prev s c now prev t0 hloc htime hlt
  · intro s c now hsp hnone
    rw [hsel s c now hsp]
    exact speedFallback_zero s c now hnone
  · intro s c now v hv hnn
    unfold computedSpeedOf2
    rw [if_pos rfl, hv]
    simp [hnn]
  · intro s c now
    unfold computedSpeedOf2 computedSpeedOf speedFallback
    simp

/-- Witness for the amended C7 at concrete inputs: a device-reported speed
of 3 m/s is used verbatim by the first variant and by the second variant
on iOS. -/
theorem claim_C7_witness :
    (⟨0, 0, none, some 3, none⟩ : RawLocationSample).speed = some 3 ∧
      (0:ℝ) ≤ 3 ∧
      computedSpeedOf ⟨none, none, 0, [], none, none, none, 0, 0, 0⟩
        ⟨0, 0, none, some 3, none⟩ 7 = 3 ∧
      computedSpeedOf2 true ⟨none, none, 0, [], none, none, none, 0, 0, 0⟩
        ⟨0, 0, none, some 3, none⟩ 7 = 3 :=
  ⟨rfl, by norm_num,
    claim_C7_speed_selection.1 _ _ 7 3 rfl (by norm_num),
    claim_C7_speed_selection.2.2.2.1 _ _ 7 3 rfl (by norm_num)⟩

lemma stillSection_frame (s : AccelState) (a : V3) (now : ℤ) :
    (stillSection s a now).baselineZ = s.baselineZ ∧
    (stillSection s a now).bumpMajorCount = s.bumpMajorCount ∧
    (stillSection s a now).bumpMinorCount = s.bumpMinorCount ∧
    (stillSection s a now).bumpEvents = s.bumpEvents ∧
    (stillSection s a now).crashCooldownUntil = s.crashCooldownUntil ∧
    (stillSection s a now).baselineFall = s.baselineFall ∧
    (stillSection s a now).fallStart = s.fallStart ∧
    (stillSection s a now).fallCount = s.fallCount ∧
    (stillSection s a now).isFallen = s.isFallen := by
  cases hLA : s.lastAccel with
  | none => simp [stillSection, hLA]
  | some prev =>
      cases hCS : s.currentStopStart with
      | none =>
          simp only [stillSection, hLA, hCS]
          split_ifs <;> simp
      | some t0 =>
          simp only [stillSection, hLA, hCS]
          split_ifs with h
          · simp
          · simp only [finalizeStop]
            split_ifs <;> simp

lemma bumpSection_frame (s : AccelState) (a : V3) (now : ℤ) :
    (bumpSection s a now).lastAccel = s.lastAccel ∧
    (bumpSection s a now).currentStopStart = s.currentStopStart ∧
    (bumpSection s a now).stillTimer = s.stillTimer ∧
    (bumpSection s a now).stopCount = s.stopCount ∧
    (bumpSection s a now).stops = s.stops ∧
    (bumpSection s a now).totalStopTime = s.totalStopTime ∧
    (bumpSection s a now).baselineFall = s.baselineFall ∧
    (bumpSection s a now).fallStart = s.fallStart ∧
    (bumpSection s a now).fallCount = s.fallCount ∧
    (bumpSection s a now).isFallen = s.isFallen := by
  unfold bumpSection
  split_ifs with h1 h2
  · simp
  · simp
  · cases hBZ : s.baselineZ with
    | none =>
        dsimp only
        simp
    | some b =>
        dsimp only
        split_ifs <;> first
          | simp
          | (simp only [handleBumpEvent]; split_ifs <;> simp)

lemma fallSection_frame (s : AccelState) (a : V3) (now : ℤ) :
    (fallSection s a now).lastAccel = s.lastAccel ∧
    (fallSection s a now).currentStopStart = s.currentStopStart ∧
    (fallSection s a now).stillTimer = s.stillTimer ∧
    (fallSection s a now).stopCount = s.stopCount ∧
    (fallSection s a now).stops = s.stops ∧
    (fallSection s a now).totalStopTime = s.totalStopTime ∧
    (fallSection s a now).baselineZ = s.baselineZ ∧
    (fallSection s a now).bumpMajorCount = s.bumpMajorCount ∧
    (fallSection s a now).bumpMinorCount = s.bumpMinorCount ∧
    (fallSection s a now).bumpEvents = s.bumpEvents ∧
    (fallSection s a now).crashCooldownUntil = s.crashCooldownUntil := by
  unfold fallSection
  cases hBF : s.baselineFall with
  | none =>
      dsimp only
      split_ifs <;> first
        | simp
        | (cases hFS : s.fallStart <;> dsimp only <;> first
            | simp
            | (split_ifs <;> simp))
  | some base =>
      dsimp only
      split_ifs <;> first
        | simp
        | (cases hFS : s.fallStart <;> dsimp only <;> first
            | simp
            | (split_ifs <;> simp))

lemma finalizeStop_records (s : AccelState) (t0 now : ℤ)
    (h : s.currentStopStart = some t0) (hd : 15000 ≤ now - t0) :
    (finalizeStop s now).stops = s.stops ++ [⟨t0, now, now - t0⟩] ∧
      (finalizeStop s now).stopCount = s.stopCount + 1 ∧
      (finalizeStop s now).totalStopTime = s.totalStopTime + (now - t0) := by
  unfold finalizeStop
  rw [h]
  simp only [Option.getD_some]
  rw [if_pos hd]
  exact ⟨rfl, rfl, rfl⟩

lemma finalizeStop_discards (s : AccelState) (t0 now : ℤ)
    (h : s.currentStopStart = some t0) (hd : now - t0 < 15000) :
    (finalizeStop s now).stops = s.stops ∧
      (finalizeStop s now).stopCount = s.stopCount ∧
      (finalizeStop s now).totalStopTime = s.totalStopTime := by
  unfold finalizeStop
  rw [h]
  simp only [Option.getD_some]
  rw [if_neg (by omega)]
  simp

lemma accelStep_motion_finalizes (s : AccelState) (a prev : V3) (now t0 : ℤ)
    (hLA : s.lastAccel = some prev)
    (hmove : ¬(|a.x - prev.x| < 0.05 ∧ |a.y - prev.y| < 0.05 ∧
      |a.z - prev.z| < 0.05))
    (hCS : s.currentStopStart = some t0) :
    (accelStep false false s a now).stops = (finalizeStop s now).stops ∧
      (accelStep false false s a now).stopCount =
        (finalizeStop s now).stopCount ∧
      (accelStep false false s a now).totalStopTime =
        (finalizeStop s now).totalStopTime := by
  unfold accelStep
  simp only [Bool.false_eq_true, if_false]
  have hstill : stillSection s a now =
      { finalizeStop s now with lastAccel := some a } := by
    unfold stillSection
    rw [hLA]
    dsimp only
    rw [if_neg hmove, hCS]
  rw [hstill]
  have hb := bumpSection_frame { finalizeStop s now with lastAccel := some a } a now
  have hf := fallSection_frame
    (bumpSection { finalizeStop s now with lastAccel := some a } a now) a now
  refine ⟨?_, ?_, ?_⟩
  · rw [hf.2.2.2.2.1, hb.2.2.2.2.1]
  · rw [hf.2.2.2.1, hb.2.2.2.1]
  · rw [hf.2.2.2.2.2.1, hb.2.2.2.2.2.1]

/-- C2: a stillness period finalized by a movement sample is recorded if
and only if it lasted at least `STILLNESS_DURATION = 15000` ms: a shorter
period leaves the stop list and counter untouched (no zero-duration
entry), a longer one appends exactly one entry, whose duration is the
full period length (hence at least 15000 ms), and increments the counter
by one. -/
theorem claim_C2_stillness_sustained_gate (s : AccelState) (a prev : V3)
    (now t0 : ℤ) (hLA : s.lastAccel = some prev)
    (hmove : ¬(|a.x - prev.x| < 0.05 ∧ |a.y - prev.y| < 0.05 ∧
      |a.z - prev.z| < 0.05))
    (hCS : s.currentStopStart = some t0) :
    (15000 ≤ now - t0 →
      (accelStep false false s a now).stops =
          s.stops ++ [⟨t0, now, now - t0⟩] ∧
        (accelStep false false s a now).stopCount = s.stopCount + 1 ∧
        (∀ e ∈ [(⟨t0, now, now - t0⟩ : StopEntry)], 15000 ≤ e.duration)) ∧
    (now - t0 < 15000 →
      (accelStep false false s a now).stops = s.stops ∧
        (accelStep false false s a now).stopCount = s.stopCount) := by
  have hstep := accelStep_motion_finalizes s a prev now t0 hLA hmove hCS
  constructor
  · intro hd
    have hrec := finalizeStop_records s t0 now hCS hd
    refine ⟨?_, ?_, ?_⟩
    · rw [hstep.1, hrec.1]
    · rw [hstep.2.1, hrec.2.1]
    · intro e he
      simp only [List.mem_singleton] at he
      subst he
      exact hd
  · intro hd
    have hrec := finalizeStop_discards s t0 now hCS hd
    exact ⟨hstep.1.trans hrec.1, hstep.2.1.trans hrec.2.1⟩

/-- Witness for C2 at concrete inputs: a stillness period of 15100 ms
(movement sample at t = 15100, stop started at t = 0) yields exactly one
recorded stop of duration 15100; one of 14900 ms yields none. -/
theorem claim_C2_witness :
    ((⟨some ⟨0, 0, 0⟩, some 0, some 15000, 0, [], 0, none, 0, 0, 0, none,
        none, none, 0, false⟩ : AccelState).lastAccel = some ⟨0, 0, 0⟩ ∧
      ¬(|(1:ℝ) - 0| < 0.05 ∧ |(1:ℝ) - 0| < 0.05 ∧ |(1:ℝ) - 0| < 0.05) ∧
      (15000 ≤ (15100:ℤ) - 0) ∧
      (accelStep false false
          ⟨some ⟨0, 0, 0⟩, some 0, some 15000, 0, [], 0, none, 0, 0, 0, none,
            none, none, 0, false⟩ ⟨1, 1, 1⟩ 15100).stops =
        [⟨0, 15100, 15100⟩] ∧
      (accelStep false false
          ⟨some ⟨0, 0, 0⟩, some 0, some 15000, 0, [], 0, none, 0, 0, 0, none,
            none, none, 0, false⟩ ⟨1, 1, 1⟩ 15100).stopCount = 1) ∧
    ((accelStep false false
          ⟨some ⟨0, 0, 0⟩, some 0, some 15000, 0, [], 0, none, 0, 0, 0, none,
            none, none, 0, false⟩ ⟨1, 1, 1⟩ 14900).stops = [] ∧
      (accelStep false false
          ⟨some ⟨0, 0, 0⟩, some 0, some 15000, 0, [], 0, none, 0, 0, 0, none,
            none, none, 0, false⟩ ⟨1, 1, 1⟩ 14900).stopCount = 0) := by
  have hmove : ¬(|(1:ℝ) - 0| < 0.05 ∧ |(1:ℝ) - 0| < 0.05 ∧
      |(1:ℝ) - 0| < 0.05) := by norm_num
  have h1 := (claim_C2_stillness_sustained_gate
    ⟨some ⟨0, 0, 0⟩, some 0, some 15000, 0, [], 0, none, 0, 0, 0, none,
      none, none, 0, false⟩ ⟨1, 1, 1⟩ ⟨0, 0, 0⟩ 15100 0 rfl hmove rfl).1
    (by omega)
  have h2 := (claim_C2_stillness_sustained_gate
    ⟨some ⟨0, 0, 0⟩, some 0, some 15000, 0, [], 0, none, 0, 0, 0, none,
      none, none, 0, false⟩ ⟨1, 1, 1⟩ ⟨0, 0, 0⟩ 14900 0 rfl hmove rfl).2
    (by omega)
  refine ⟨⟨rfl, hmove, by omega, ?_, h1.2.1⟩, h2.1, h2.2⟩
  rw [h1.1]
  simp

lemma handleBumpEvent_effect (adjustedZ : ℝ) (s : AccelState) (now : ℤ) :
    (handleBumpEvent adjustedZ s now).bumpEvents = s.bumpEvents + 1 ∧
      (handleBumpEvent adjustedZ s now).bumpMajorCount +
        (handleBumpEvent adjustedZ s now).bumpMinorCount =
        s.bumpMajorCount + s.bumpMinorCount + 1 ∧
      (handleBumpEvent adjustedZ s now).crashCooldownUntil =
        some (now + 1000) ∧
      (handleBumpEvent adjustedZ s now).baselineZ = s.baselineZ ∧
      (handleBumpEvent adjustedZ s now).isFallen = s.isFallen ∧
      (handleBumpEvent adjustedZ s now).fallStart = s.fallStart ∧
      (handleBumpEvent adjustedZ s now).baselineFall = s.baselineFall := by
  unfold handleBumpEvent
  split_ifs <;> refine ⟨rfl, by simp only [AccelState.mk.injEq]; omega, rfl, rfl, rfl, rfl, rfl⟩

lemma bumpSection_fires (s : AccelState) (a : V3) (now : ℤ) (b : ℝ)
    (hF : s.isFallen = false) (hcd : ¬cooldownActive s now)
    (hBZ : s.baselineZ = some b) (hbig : 0.5 < |a.z - b|) :
    bumpSection s a now =
      handleBumpEvent (a.z - b) { s with baselineZ := some b } now := by
  have hna : ¬(|a.z - b| < 0.2) := by
    intro hc
    linarith
  unfold bumpSection
  rw [if_neg (by simp [hF]), if_neg hcd, hBZ]
  dsimp only
  rw [if_neg hna, if_pos hbig]

lemma bumpSection_skip_cooldown (s : AccelState) (a : V3) (now : ℤ)
    (hcd : cooldownActive s now) : bumpSection s a now = s := by
  unfold bumpSection
  by_cases hF : s.isFallen = true
  · rw [if_pos hF]
  · rw [if_neg hF, if_pos hcd]

lemma bumpSection_skip_fallen (s : AccelState) (a : V3) (now : ℤ)
    (hF : s.isFallen = true) : bumpSection s a now = s := by
  unfold bumpSection
  rw [if_pos hF]

lemma fallSection_keeps_not_fallen (s : AccelState) (a : V3) (now : ℤ)
    (hF : s.isFallen = false) (hFS : s.fallStart = none) :
    (fallSection s a now).isFallen = false ∧
      ((fallSection s a now).fallStart = none ∨
        (fallSection s a now).fallStart = some now) := by
  unfold fallSection
  cases hBF : s.baselineFall with
  | none =>
      dsimp only
      rw [if_pos (by simp [hF])]
      split_ifs with hgt
      · rw [hFS]
        exact ⟨hF, Or.inr rfl⟩
      · exact ⟨hF, Or.inl rfl⟩
  | some base =>
      dsimp only
      rw [if_pos (by simp [hF])]
      split_ifs with hgt
      · rw [hFS]
        exact ⟨hF, Or.inr rfl⟩
      · exact ⟨hF, Or.inl rfl⟩

lemma accelStep_run (s : AccelState) (a : V3) (now : ℤ) :
    accelStep false false s a now =
      fallSection (bumpSection (stillSection s a now) a now) a now := by
  unfold accelStep
  simp

lemma runAccel_pair (s : AccelState) (x y : V3 × ℤ) :
    runAccel false false s [x, y] =
      accelStep false false (accelStep false false s x.1 x.2) y.1 y.2 := by
  simp [runAccel]

lemma bumpSection_fires_effect (s : AccelState) (a : V3) (now : ℤ) (b : ℝ)
    (hF : s.isFallen = false) (hcd : ¬cooldownActive s now)
    (hBZ : s.baselineZ = some b) (hbig : 0.5 < |a.z - b|) :
    (bumpSection s a now).bumpEvents = s.bumpEvents + 1 ∧
      (bumpSection s a now).bumpMajorCount +
        (bumpSection s a now).bumpMinorCount =
        s.bumpMajorCount + s.bumpMinorCount + 1 ∧
      (bumpSection s a now).crashCooldownUntil = some (now + 1000) ∧
      (bumpSection s a now).baselineZ = some b := by
  rw [bumpSection_fires s a now b hF hcd hBZ hbig]
  unfold handleBumpEvent
  split_ifs <;> refine ⟨rfl, by simp only; omega, rfl, rfl⟩

lemma accelStep_bump_fires_counters (s : AccelState) (a : V3) (now : ℤ)
    (b : ℝ) (hF : s.isFallen = false) (hcd : ¬cooldownActive s now)
    (hBZ : s.baselineZ = some b) (hbig : 0.5 < |a.z - b|) :
    (accelStep false false s a now).bumpEvents = s.bumpEvents + 1 ∧
      (accelStep false false s a now).bumpMajorCount +
        (accelStep false false s a now).bumpMinorCount =
        s.bumpMajorCount + s.bumpMinorCount + 1 ∧
      (accelStep false false s a now).crashCooldownUntil =
        some (now + 1000) ∧
      (accelStep false false s a now).baselineZ = some b := by
  obtain ⟨g1, g2, g3, g4, g5, g6, g7, g8, g9⟩ := stillSection_frame s a now
  have hcd1 : ¬ cooldownActive (stillSection s a now) now := by
    unfold cooldownActive at hcd ⊢
    rw [g5]
    exact hcd
  obtain ⟨p1, p2, p3, p4⟩ := bumpSection_fires_effect (stillSection s a now)
    a now b (g9.trans hF) hcd1 (g1.trans hBZ) hbig
  obtain ⟨k1, k2, k3, k4, k5, k6, k7, k8, k9, k10, k11⟩ :=
    fallSection_frame (bumpSection (stillSection s a now) a now) a now
  rw [accelStep_run]
  refine ⟨?_, ?_, ?_, ?_⟩
  · rw [k10, p1, g4]
  · rw [k8, k9]
    omega
  · rw [k11, p3]
  · rw [k7, p4]

lemma accelStep_not_fallen_propagates (s : AccelState) (a : V3) (now : ℤ)
    (hF : s.isFallen = false) (hFS : s.fallStart = none) :
    (accelStep false false s a now).isFallen = false ∧
      ((accelStep false false s a now).fallStart = none ∨
        (accelStep false false s a now).fallStart = some now) := by
  obtain ⟨g1, g2, g3, g4, g5, g6, g7, g8, g9⟩ := stillSection_frame s a now
  obtain ⟨b1, b2, b3, b4, b5, b6, b7, b8, b9, b10⟩ :=
    bumpSection_frame (stillSection s a now) a now
  rw [accelStep_run]
  exact fallSection_keeps_not_fallen _ a now
    (b10.trans (g9.trans hF)) (b8.trans (g7.trans hFS))

lemma accelStep_cooldown_suppresses (s : AccelState) (a : V3) (now : ℤ)
    (hcd : cooldownActive s now) :
    (accelStep false false s a now).bumpEvents = s.bumpEvents ∧
      (accelStep false false s a now).bumpMajorCount = s.bumpMajorCount ∧
      (accelStep false false s a now).bumpMinorCount = s.bumpMinorCount := by
  obtain ⟨g1, g2, g3, g4, g5, g6, g7, g8, g9⟩ := stillSection_frame s a now
  have hcd1 : cooldownActive (stillSection s a now) now := by
    unfold cooldownActive at hcd ⊢
    rw [g5]
    exact hcd
  have hskip := bumpSection_skip_cooldown (stillSection s a now) a now hcd1
  obtain ⟨k1, k2, k3, k4, k5, k6, k7, k8, k9, k10, k11⟩ :=
    fallSection_frame (bumpSection (stillSection s a now) a now) a now
  rw [accelStep_run, hskip]
  rw [hskip] at k8 k9 k10
  exact ⟨k10.trans g4, k8.trans g2, k9.trans g3⟩

lemma cooldownActive_none {s : AccelState}
    (h : s.crashCooldownUntil = none) (now : ℤ) : ¬cooldownActive s now := by
  unfold cooldownActive
  rw [h]
  exact fun hc => hc

lemma cooldownActive_some {s : AccelState} {u : ℤ}
    (h : s.crashCooldownUntil = some u) (now : ℤ) :
    cooldownActive s now ↔ now < u := by
  unfold cooldownActive
  rw [h]

lemma runAccel_two (s : AccelState) (a1 a2 : V3) (t1 t2 : ℤ) :
    runAccel false false s [(a1, t1), (a2, t2)] =
      accelStep false false (accelStep false false s a1 t1) a2 t2 := by
  simp [runAccel]

/-- C3: starting from an idle detector (no fall, no cooldown, settled
baseline), two samples whose vertical deviation from the baseline crosses
the bump threshold produce exactly one Bump event (and exactly one bump
counter increment) when 200 ms apart - the second being suppressed by the
1000 ms cooldown armed by the first - and exactly two Bump events when
1200 ms apart. -/
theorem claim_C3_bump_debounce (s : AccelState) (a1 a2 : V3) (b : ℝ)
    (t : ℤ) (hF : s.isFallen = false) (hcd : s.crashCooldownUntil = none)
    (hFS : s.fallStart = none) (hBZ : s.baselineZ = some b)
    (h1 : 0.5 < |a1.z - b|) (h2 : 0.5 < |a2.z - b|) :
    ((runAccel false false s [(a1, t), (a2, t + 200)]).bumpEvents =
        s.bumpEvents + 1 ∧
      (runAccel false false s [(a1, t), (a2, t + 200)]).bumpMajorCount +
        (runAccel false false s [(a1, t), (a2, t + 200)]).bumpMinorCount =
        s.bumpMajorCount + s.bumpMinorCount + 1) ∧
    ((runAccel false false s [(a1, t), (a2, t + 1200)]).bumpEvents =
        s.bumpEvents + 2 ∧
      (runAccel false false s [(a1, t), (a2, t + 1200)]).bumpMajorCount +
        (runAccel false false s [(a1, t), (a2, t + 1200)]).bumpMinorCount =
        s.bumpMajorCount + s.bumpMinorCount + 2) := by
  obtain ⟨f1e, f1c, f1cd, f1bz⟩ := accelStep_bump_fires_counters s a1 t b hF
    (cooldownActive_none hcd t) hBZ h1
  obtain ⟨nf1, -⟩ := accelStep_not_fallen_propagates s a1 t hF hFS
  constructor
  · rw [runAccel_two]
    have hcd2 : cooldownActive (accelStep false false s a1 t) (t + 200) :=
      (cooldownActive_some f1cd (t + 200)).mpr (by omega)
    obtain ⟨q1, q2, q3⟩ :=
      accelStep_cooldown_suppresses (accelStep false false s a1 t) a2
        (t + 200) hcd2
    exact ⟨q1.trans f1e, by omega⟩
  · rw [runAccel_two]
    have hcd2 : ¬cooldownActive (accelStep false false s a1 t) (t + 1200) := by
      rw [cooldownActive_some f1cd (t + 1200)]
      omega
    obtain ⟨r1, r2, r3, r4⟩ := accelStep_bump_fires_counters
      (accelStep false false s a1 t) a2 (t + 1200) b nf1 hcd2 f1bz h2
    constructor
    · rw [r1, f1e]
    · omega

/-- Witness for C3 at concrete inputs: baseline 0, two samples with
`z = 2` (deviation 2 > 0.5), arriving at 0 and 200 ms give one Bump
event; arriving at 0 and 1200 ms give two. -/
theorem claim_C3_witness :
    ((⟨none, none, none, 0, [], 0, some 0, 0, 0, 0, none, none, none, 0,
        false⟩ : AccelState).isFallen = false ∧
      (⟨none, none, none, 0, [], 0, some 0, 0, 0, 0, none, none, none, 0,
        false⟩ : AccelState).crashCooldownUntil = none ∧
      (0.5 < |(⟨0, 0, 2⟩ : V3).z - 0|)) ∧
    (runAccel false false
        ⟨none, none, none, 0, [], 0, some 0, 0, 0, 0, none, none, none, 0,
          false⟩ [(⟨0, 0, 2⟩, 0), (⟨0, 0, 2⟩, 200)]).bumpEvents = 1 ∧
    (runAccel false false
        ⟨none, none, none, 0, [], 0, some 0, 0, 0, 0, none, none, none, 0,
          false⟩ [(⟨0, 0, 2⟩, 0), (⟨0, 0, 2⟩, 1200)]).bumpEvents = 2 := by
  have h := claim_C3_bump_debounce
    ⟨none, none, none, 0, [], 0, some 0, 0, 0, 0, none, none, none, 0,
      false⟩ ⟨0, 0, 2⟩ ⟨0, 0, 2⟩ 0 0 rfl rfl rfl rfl (by norm_num)
    (by norm_num)
  exact ⟨⟨rfl, rfl, by norm_num⟩, by simpa using h.1.1, by simpa using h.2.1⟩

lemma fallSection_fallen_iff (s : AccelState) (a : V3) (now : ℤ)
    (hF : s.isFallen = true) :
    ((fallSection s a now).isFallen = false ↔
      nanLt (jsAngleDeg a (s.baselineFall.getD a)) 45) := by
  unfold fallSection
  cases hBF : s.baselineFall with
  | none =>
      dsimp only
      rw [if_neg (by simp [hF])]
      simp only [Option.getD_some, Option.getD_none]
      split_ifs with h
      · exact ⟨fun _ => h, fun _ => rfl⟩
      · exact iff_of_false (by simp [hF]) h
  | some v =>
      dsimp only
      rw [if_neg (by simp [hF]), hBF]
      simp only [Option.getD_some, Option.getD_none]
      split_ifs with h
      · exact ⟨fun _ => h, fun _ => rfl⟩
      · exact iff_of_false (by simp [hF]) h

/-- C4: while `isFallen` is set, no accelerometer sample changes any bump
counter or emits a Bump event, however large the vertical deviation; and
the fall state clears (letting bump detection resume) exactly when the
angle between the sample and the gravity baseline is a real value below
45 degrees. -/
theorem claim_C4_fall_suppresses_bump :
    (∀ (resultShown paused : Bool) (s : AccelState) (a : V3) (now : ℤ),
      s.isFallen = true →
        (accelStep resultShown paused s a now).bumpMajorCount =
            s.bumpMajorCount ∧
          (accelStep resultShown paused s a now).bumpMinorCount =
            s.bumpMinorCount ∧
          (accelStep resultShown paused s a now).bumpEvents =
            s.bumpEvents) ∧
    (∀ (s : AccelState) (a : V3) (now : ℤ), s.isFallen = true →
      ((accelStep false false s a now).isFallen = false ↔
        nanLt (jsAngleDeg a (s.baselineFall.getD a)) 45)) := by
  constructor
  · intro rs p s a now hF
    cases rs with
    | true =>
        unfold accelStep
        simp
    | false =>
        cases p with
        | true =>
            unfold accelStep
            simp
        | false =>
            obtain ⟨g1, g2, g3, g4, g5, g6, g7, g8, g9⟩ :=
              stillSection_frame s a now
            have hskip := bumpSection_skip_fallen (stillSection s a now) a
              now (g9.trans hF)
            obtain ⟨k1, k2, k3, k4, k5, k6, k7, k8, k9, k10, k11⟩ :=
              fallSection_frame (bumpSection (stillSection s a now) a now)
                a now
            rw [accelStep_run, hskip]
            rw [hskip] at k8 k9 k10
            exact ⟨k8.trans g2, k9.trans g3, k10.trans g4⟩
  · intro s a now hF
    obtain ⟨g1, g2, g3, g4, g5, g6, g7, g8, g9⟩ := stillSection_frame s a now
    have hskip := bumpSection_skip_fallen (stillSection s a now) a now
      (g9.trans hF)
    rw [accelStep_run, hskip]
    have := fallSection_fallen_iff (stillSection s a now) a now
      (g9.trans hF)
    rwa [g6] at this

/-- Witness for C4 at concrete inputs: with `isFallen` set and baseline
`(0,0,1)`, a sample `(0,0,9)` (vertical deviation 9) leaves all bump
state at 0, and a sample equal to the baseline (angle 0 < 45) clears the
fall state. -/
theorem claim_C4_witness :
    ((⟨none, none, none, 0, [], 0, some 0, 0, 0, 0, none, some ⟨0, 0, 1⟩,
        none, 0, true⟩ : AccelState).isFallen = true) ∧
    (accelStep false false
        ⟨none, none, none, 0, [], 0, some 0, 0, 0, 0, none, some ⟨0, 0, 1⟩,
          none, 0, true⟩ ⟨0, 0, 9⟩ 0).bumpEvents = 0 ∧
    (accelStep false false
        ⟨none, none, none, 0, [], 0, some 0, 0, 0, 0, none, some ⟨0, 0, 1⟩,
          none, 0, true⟩ ⟨0, 0, 9⟩ 0).bumpMajorCount = 0 ∧
    (accelStep false false
        ⟨none, none, none, 0, [], 0, some 0, 0, 0, 0, none, some ⟨0, 0, 1⟩,
          none, 0, true⟩ ⟨0, 0, 1⟩ 0).isFallen = false := by
  have hsupp := claim_C4_fall_suppresses_bump.1 false false
    ⟨none, none, none, 0, [], 0, some 0, 0, 0, 0, none, some ⟨0, 0, 1⟩,
      none, 0, true⟩ ⟨0, 0, 9⟩ 0 rfl
  have hmag : magV ⟨0, 0, 1⟩ = 1 := by
    unfold magV
    norm_num [Real.sqrt_one]
  have hang : jsAngleDeg ⟨0, 0, 1⟩ ⟨0, 0, 1⟩ = some 0 := by
    unfold jsAngleDeg
    rw [hmag]
    norm_num [dotV, Real.arccos_one]
  have hres := (claim_C4_fall_suppresses_bump.2
    ⟨none, none, none, 0, [], 0, some 0, 0, 0, 0, none, some ⟨0, 0, 1⟩,
      none, 0, true⟩ ⟨0, 0, 1⟩ 0 rfl).mpr
    (by
      simp only [Option.getD_some]
      rw [show nanLt (jsAngleDeg ⟨0, 0, 1⟩ ⟨0, 0, 1⟩) 45 ↔ (0:ℝ) < 45 by
        rw [hang]; exact Iff.rfl]
      norm_num)
  exact ⟨rfl, hsupp.2.2.trans rfl, hsupp.1.trans rfl, hres⟩

lemma fallSection_no_angle (s : AccelState) (a : V3) (now : ℤ)
    (hgt : ¬nanGt (jsAngleDeg a (s.baselineFall.getD a)) 45)
    (hlt : ¬nanLt (jsAngleDeg a (s.baselineFall.getD a)) 45) :
    (fallSection s a now).fallCount = s.fallCount ∧
      (fallSection s a now).isFallen = s.isFallen ∧
      (s.isFallen = false → (fallSection s a now).fallStart = none) := by
  unfold fallSection
  cases hBF : s.baselineFall with
  | none =>
      rw [hBF] at hgt hlt
      simp only [Option.getD_none] at hgt hlt
      dsimp only
      simp only [Option.getD_some]
      by_cases hF : s.isFallen = false
      · rw [if_pos hF, if_neg hgt]
        exact ⟨rfl, rfl, fun _ => rfl⟩
      · have hF2 : s.isFallen = true := by
          revert hF
          cases s.isFallen <;> simp
        rw [if_neg hF, if_neg hlt]
        exact ⟨rfl, rfl, fun hc => absurd hc hF⟩
  | some v =>
      dsimp only
      by_cases hF : s.isFallen = false
      · rw [if_pos hF, if_neg hgt]
        exact ⟨rfl, rfl, fun _ => rfl⟩
      · rw [if_neg hF, if_neg hlt]
        exact ⟨rfl, rfl, fun hc => absurd hc hF⟩

/-- C5 as stated is false: the code does not skip a degenerate sample.
With no fall in progress (`isFallen = false`) but a pending fall start,
the zero-magnitude sample `(0,0,0)` yields a NaN angle whose `> 45`
comparison is false, and the else branch clears the pending
`fallDetectionStartRef` - the fall-detector state changes. -/
theorem claim_C5_counterexample :
    magV ⟨0, 0, 0⟩ = 0 ∧
      (⟨none, none, none, 0, [], 0, none, 0, 0, 0, none, some ⟨0, 0, 1⟩,
        some 0, 0, false⟩ : AccelState).fallStart = some 0 ∧
      (fallSection
          ⟨none, none, none, 0, [], 0, none, 0, 0, 0, none, some ⟨0, 0, 1⟩,
            some 0, 0, false⟩ ⟨0, 0, 0⟩ 250).fallStart = none ∧
      fallSection
          ⟨none, none, none, 0, [], 0, none, 0, 0, 0, none, some ⟨0, 0, 1⟩,
            some 0, 0, false⟩ ⟨0, 0, 0⟩ 250 ≠
        ⟨none, none, none, 0, [], 0, none, 0, 0, 0, none, some ⟨0, 0, 1⟩,
          some 0, 0, false⟩ := by
  have hmag0 : magV ⟨0, 0, 0⟩ = 0 := by
    unfold magV
    norm_num
  have hang : jsAngleDeg ⟨0, 0, 0⟩ ⟨0, 0, 1⟩ = none := by
    unfold jsAngleDeg
    rw [if_pos (by rw [hmag0]; ring)]
  have hgt : ¬nanGt (jsAngleDeg ⟨0, 0, 0⟩ ⟨0, 0, 1⟩) 45 := by
    rw [hang]
    exact fun h => h
  have hlt : ¬nanLt (jsAngleDeg ⟨0, 0, 0⟩ ⟨0, 0, 1⟩) 45 := by
    rw [hang]
    exact fun h => h
  have h3 := fallSection_no_angle
    ⟨none, none, none, 0, [], 0, none, 0, 0, 0, none, some ⟨0, 0, 1⟩,
      some 0, 0, false⟩ ⟨0, 0, 0⟩ 250 hgt hlt
  have hclear := h3.2.2 rfl
  refine ⟨hmag0, rfl, hclear, fun heq => ?_⟩
  have := congrArg AccelState.fallStart heq
  rw [hclear] at this
  exact Option.noConfusion this

/-- C5 amended: on a sample where either the current vector or the
gravity baseline has zero magnitude, the angle is NaN (`none`), both
threshold comparisons are false, and neither `fallCount` nor `isFallen`
changes; but the sample is not skipped: when no fall is in progress the
pending fall-start timestamp is cleared, exactly as for a non-qualifying
real angle. -/
theorem claim_C5_degenerate_angle (s : AccelState) (a : V3) (now : ℤ)
    (hdeg : magV a * magV (s.baselineFall.getD a) = 0) :
    jsAngleDeg a (s.baselineFall.getD a) = none ∧
      ¬nanGt (jsAngleDeg a (s.baselineFall.getD a)) 45 ∧
      ¬nanLt (jsAngleDeg a (s.baselineFall.getD a)) 45 ∧
      (fallSection s a now).fallCount = s.fallCount ∧
      (fallSection s a now).isFallen = s.isFallen ∧
      (s.isFallen = false → (fallSection s a now).fallStart = none) := by
  have hang : jsAngleDeg a (s.baselineFall.getD a) = none := by
    unfold jsAngleDeg
    rw [if_pos hdeg]
  have hgt : ¬nanGt (jsAngleDeg a (s.baselineFall.getD a)) 45 := by
    rw [hang]
    exact fun h => h
  have hlt : ¬nanLt (jsAngleDeg a (s.baselineFall.getD a)) 45 := by
    rw [hang]
    exact fun h => h
  obtain ⟨h1, h2, h3⟩ := fallSection_no_angle s a now hgt hlt
  exact ⟨hang, hgt, hlt, h1, h2, h3⟩

/-- Witness for the amended C5 at a concrete input: the zero sample
against baseline `(0,0,1)` has a zero magnitude product, and the fall
counter and fall flag are unchanged. -/
theorem claim_C5_witness :
    magV ⟨0, 0, 0⟩ *
        magV ((⟨none, none, none, 0, [], 0, none, 0, 0, 0, none,
          some ⟨0, 0, 1⟩, some 0, 0, false⟩ :
            AccelState).baselineFall.getD ⟨0, 0, 0⟩) = 0 ∧
      (fallSection
          ⟨none, none, none, 0, [], 0, none, 0, 0, 0, none, some ⟨0, 0, 1⟩,
            some 0, 0, false⟩ ⟨0, 0, 0⟩ 250).fallCount = 0 ∧
      (fallSection
          ⟨none, none, none, 0, [], 0, none, 0, 0, 0, none, some ⟨0, 0, 1⟩,
            some 0, 0, false⟩ ⟨0, 0, 0⟩ 250).isFallen = false := by
  have hdeg : magV ⟨0, 0, 0⟩ *
      magV ((⟨none, none, none, 0, [], 0, none, 0, 0, 0, none,
        some ⟨0, 0, 1⟩, some 0, 0, false⟩ :
          AccelState).baselineFall.getD ⟨0, 0, 0⟩) = 0 := by
    rw [show magV ⟨0, 0, 0⟩ = 0 by unfold magV; norm_num]
    ring
  have h := claim_C5_degenerate_angle
    ⟨none, none, none, 0, [], 0, none, 0, 0, 0, none, some ⟨0, 0, 1⟩,
      some 0, 0, false⟩ ⟨0, 0, 0⟩ 250 hdeg
  exact ⟨hdeg, h.2.2.2.1.trans rfl, h.2.2.2.2.1.trans rfl⟩

lemma stopInv_finalizeStop (s : AccelState) (now : ℤ) (h : stopInv s) :
    stopInv (finalizeStop s now) := by
  unfold finalizeStop
  split_ifs with hd
  · unfold stopInv at h ⊢
    simp only [List.length_append, List.map_append, List.sum_append,
      List.length_singleton, List.map_cons, List.map_nil, List.sum_cons,
      List.sum_nil]
    omega
  · exact h

lemma stopInv_stillSection (s : AccelState) (a : V3) (now : ℤ)
    (h : stopInv s) : stopInv (stillSection s a now) := by
  unfold stillSection
  cases hLA : s.lastAccel with
  | none => exact h
  | some prev =>
      dsimp only
      split_ifs with hs
      · cases hCS : s.currentStopStart <;> exact h
      · cases hCS : s.currentStopStart with
        | none => exact h
        | some t0 => exact stopInv_finalizeStop s now h
  

lemma stopInv_accelStep (resultShown paused : Bool) (s : AccelState)
    (a : V3) (now : ℤ) (h : stopInv s) :
    stopInv (accelStep resultShown paused s a now) := by
  unfold accelStep
  split_ifs
  · exact h
  · exact h
  · obtain ⟨b1, b2, b3, b4, b5, b6, b7, b8, b9, b10⟩ :=
      bumpSection_frame (stillSection s a now) a now
    obtain ⟨k1, k2, k3, k4, k5, k6, k7, k8, k9, k10, k11⟩ :=
      fallSection_frame (bumpSection (stillSection s a now) a now) a now
    have hstill := stopInv_stillSection s a now h
    unfold stopInv at hstill ⊢
    rw [k4, k5, k6, b4, b5, b6]
    exact hstill

lemma stopInv_runAccel (resultShown paused : Bool)
    (samples : List (V3 × ℤ)) :
    ∀ s : AccelState, stopInv s →
      stopInv (runAccel resultShown paused s samples) := by
  induction samples with
  | nil =>
      intro s h
      simpa [runAccel] using h
  | cons hd tl ih =>
      intro s h
      have h1 := stopInv_accelStep resultShown paused s hd.1 hd.2 h
      simpa [runAccel] using ih _ h1

/-- C10: the new-journey reset establishes the stop-aggregate invariant
(counter = list length, total = summed durations) with all three cleared
together, and `finalizeStop`, a whole accelerometer callback, and any
sample stream preserve it. -/
theorem claim_C10_stop_aggregates :
    (∀ s : AccelState, stopInv (resetJourney s) ∧
      (resetJourney s).stopCount = 0 ∧ (resetJourney s).stops = [] ∧
      (resetJourney s).totalStopTime = 0) ∧
    (∀ (s : AccelState) (now : ℤ), stopInv s →
      stopInv (finalizeStop s now)) ∧
    (∀ (resultShown paused : Bool) (s : AccelState) (a : V3) (now : ℤ),
      stopInv s → stopInv (accelStep resultShown paused s a now)) ∧
    (∀ (resultShown paused : Bool) (s : AccelState)
      (samples : List (V3 × ℤ)), stopInv s →
        stopInv (runAccel resultShown paused s samples)) :=
  ⟨fun s => ⟨⟨rfl, rfl⟩, rfl, rfl, rfl⟩, stopInv_finalizeStop,
    stopInv_accelStep,
    fun resultShown paused s samples h =>
      stopInv_runAccel resultShown paused samples s h⟩

/-- Witness for C10 at concrete inputs: the invariant holds for a fresh
state and is preserved across a movement sample that records a 15100 ms
stop. -/
theorem claim_C10_witness :
    stopInv
        ⟨some ⟨0, 0, 0⟩, some 0, some 15000, 0, [], 0, none, 0, 0, 0, none,
          none, none, 0, false⟩ ∧
      stopInv (accelStep false false
        ⟨some ⟨0, 0, 0⟩, some 0, some 15000, 0, [], 0, none, 0, 0, 0, none,
          none, none, 0, false⟩ ⟨1, 1, 1⟩ 15100) :=
  ⟨⟨rfl, rfl⟩,
    claim_C10_stop_aggregates.2.2.1 false false
      ⟨some ⟨0, 0, 0⟩, some 0, some 15000, 0, [], 0, none, 0, 0, 0, none,
        none, none, 0, false⟩ ⟨1, 1, 1⟩ 15100 ⟨rfl, rfl⟩⟩

/-- C9: the first variant's `stopTracking` unconditionally releases the
location watch and cancels a pending stillness-alert timer; the second
variant's `stopTracking` releases the watch but leaves the pending
stillness-alert timer scheduled (here one armed to fire at t = 15000
survives a stop at t = 5000), contradicting the claim for the ended
journey. -/
theorem claim_C9_stop_teardown :
    (∀ (s : Session1) (now : ℤ),
      (stopTracking s now).tracking = false ∧
        (stopTracking s now).locationSub = false ∧
        (stopTracking s now).stillTimer = none ∧
        (stopTracking2 s now).tracking = false ∧
        (stopTracking2 s now).locationSub = false) ∧
    (⟨true, true, some 15000, [], 0, some 0, 0, false⟩ :
        Session1).stillTimer = some 15000 ∧
    (stopTracking2 ⟨true, true, some 15000, [], 0, some 0, 0, false⟩
        5000).stillTimer = some 15000 :=
  ⟨fun s now => ⟨rfl, rfl, rfl, rfl, rfl⟩, rfl, rfl⟩

/-- C8: in the first variant every sample handler checks the live
`pausedRef` and returns with the state untouched while paused (so
detector state is suspended, not reset, and Resume continues from the
exact pre-pause state); in the second variant the location callback
tests the `paused` binding captured when `beginTracking` subscribed -
`false` at that moment and forever after - so a location sample arriving
while the session is paused is still processed: here it appends a speed
reading (2 m/s, iOS) to a previously empty list. -/
theorem claim_C8_paused_guard :
    (∀ (resultShown : Bool) (s : LocState) (c : RawLocationSample)
      (now : ℤ), locationStep resultShown true s c now = s) ∧
    (∀ (resultShown : Bool) (s : AccelState) (a : V3) (now : ℤ),
      accelStep resultShown true s a now = s) ∧
    (⟨none, none, 0, [], none, none, none, 0, 0, 0⟩ :
        LocState).speedReadings = [] ∧
    (locationStep2 false true ⟨none, none, 0, [], none, none, none, 0, 0, 0⟩
        ⟨0, 0, none, some 2, none⟩ 1000).speedReadings = [2] := by
  refine ⟨?_, ?_, rfl, ?_⟩
  · intro resultShown s c now
    cases resultShown <;> simp [locationStep]
  · intro resultShown s a now
    cases resultShown <;> simp [accelStep]
  · unfold locationStep2 computedSpeedOf2
    norm_num [accuracyAbove20]
